import Mathlib

/-!
Shallow embedding of the publications-service core of the
`microservice-project` repository: the publication status state machine
(`Publication.canTransitionToStatus`), the per-target-status validators and
their facade (`StateValidators.ts`), the service orchestration
(`PublicationService.createPublication` / `changePublicationStatus`), the
repository update primitives (`PublicationRepository.updateStatus`), and the
retrying remote client (`AuthorsServiceClient`).

Stores are modelled as lists of publications keyed by their `id` field;
fallible operations return `Except ServiceError` or pair the resulting store
with the outcome.  JavaScript truthiness of optional strings is modelled
explicitly (`truthy`), and the `trim().length === 0` blank checks are
modelled by `strBlank` / `notesBlank`.
-/

namespace MicroservicePub

/-- The five editorial statuses of `PublicationStatus` in `Publication.ts`. -/
inductive PublicationStatus where
  | DRAFT
  | IN_REVIEW
  | APPROVED
  | PUBLISHED
  | REJECTED
deriving DecidableEq, Repr

open PublicationStatus

/-- The `Publication` entity (fields relevant to the service logic).
`authorName`, `authorEmail` and `reviewNotes` are nullable columns, modelled
as `Option String` (`none` = SQL NULL / JS undefined). -/
structure Publication where
  id : String
  title : String
  content : String
  status : PublicationStatus
  authorId : String
  authorName : Option String := none
  authorEmail : Option String := none
  abstract_text : String := ""
  keywords : List String := []
  reviewCount : Nat := 0
  reviewNotes : Option String := none
  isVisible : Bool := true
deriving DecidableEq, Repr

/-- The `validTransitions` table inside `Publication.canTransitionToStatus`. -/
def validTransitions : PublicationStatus → List PublicationStatus
  | DRAFT => [IN_REVIEW, REJECTED]
  | IN_REVIEW => [APPROVED, REJECTED, DRAFT]
  | APPROVED => [PUBLISHED]
  | PUBLISHED => []
  | REJECTED => [DRAFT]

/-- `canTransitionToStatus` as a pure function of the two statuses:
`validTransitions[this.status]?.includes(newStatus) ?? false`. -/
def canTransition (src dst : PublicationStatus) : Bool :=
  (validTransitions src).contains dst

/-- `Publication.canTransitionToStatus(newStatus)`. -/
def Publication.canTransitionToStatus (p : Publication) (newStatus : PublicationStatus) : Bool :=
  canTransition p.status newStatus

/-- JS truthiness of an optional string: `undefined`/`null` and `''` are
falsy, every other string is truthy. -/
def truthy : Option String → Bool
  | none => false
  | some s => !s.isEmpty

/-- The JS blank test on a required string field:
`!s || s.trim().length === 0`.  `trim` strips leading and trailing
whitespace, so the trimmed string is empty exactly when every character is
whitespace (vacuously for the empty string). -/
def strBlank (s : String) : Bool :=
  s.data.isEmpty || s.data.all Char.isWhitespace

/-- The JS blank test on a nullable string field:
`!s || s.trim().length === 0` (null/undefined is falsy, hence blank). -/
def notesBlank : Option String → Bool
  | none => true
  | some s => s.data.isEmpty || s.data.all Char.isWhitespace

/-- Failure kinds of the service layer, tagged by throw site: validator
throws are `validation`, the `Cannot transition from X to Y` throw after the
state-machine check is `illegalTransition`, missing records are `notFound`,
and the `Failed to update ...` throws are `internalError`. -/
inductive ServiceError where
  | notFound (id : String)
  | validation (msg : String)
  | illegalTransition (src dst : PublicationStatus)
  | internalError (msg : String)
deriving DecidableEq, Repr

/-- The four validator classes of `StateValidators.ts`. -/
inductive ValidatorTag where
  | toReview
  | toApproved
  | toPublished
  | toRejected
deriving DecidableEq, Repr

/-- The target status each validator checks for (each validator is a no-op
when `newStatus` differs from its target). -/
def targetStatus : ValidatorTag → PublicationStatus
  | .toReview => IN_REVIEW
  | .toApproved => APPROVED
  | .toPublished => PUBLISHED
  | .toRejected => REJECTED

/-- `validate(publication, newStatus)` of each validator class; `none` means
the validator returned without throwing, `some e` means it threw `e`. -/
def validate (v : ValidatorTag) (p : Publication) (newStatus : PublicationStatus) :
    Option ServiceError :=
  match v with
  | .toReview =>
    if newStatus ≠ IN_REVIEW then none
    else if strBlank p.title then some (.validation "Title is required for review")
    else if strBlank p.content then some (.validation "Content is required for review")
    else if p.status ≠ DRAFT ∧ p.status ≠ REJECTED then
      some (.validation "Only DRAFT or REJECTED publications can go to REVIEW")
    else none
  | .toApproved =>
    if newStatus ≠ APPROVED then none
    else if p.status ≠ IN_REVIEW then
      some (.validation "Only IN_REVIEW publications can be APPROVED")
    else if notesBlank p.reviewNotes then
      some (.validation "Review notes are required for approval")
    else none
  | .toPublished =>
    if newStatus ≠ PUBLISHED then none
    else if p.status ≠ APPROVED then
      some (.validation "Only APPROVED publications can be PUBLISHED")
    else none
  | .toRejected =>
    if newStatus ≠ REJECTED then none
    else if p.status = PUBLISHED then
      some (.validation "Published publications cannot be REJECTED")
    else if notesBlank p.reviewNotes then
      some (.validation "Review notes are required for rejection")
    else none

/-- Run a list of validators in order, failing on the first throw
(the loop body of `StateValidationFacade.validateTransition`). -/
def runValidators : List ValidatorTag → Publication → PublicationStatus → Option ServiceError
  | [], _, _ => none
  | v :: rest, p, s =>
    match validate v p s with
    | some e => some e
    | none => runValidators rest p s

/-- The validator list built in the `StateValidationFacade` constructor. -/
def facadeValidators : List ValidatorTag :=
  [.toReview, .toApproved, .toPublished, .toRejected]

/-- `StateValidationFacade.validateTransition(publication, newStatus)`. -/
def validateTransition (p : Publication) (s : PublicationStatus) : Option ServiceError :=
  runValidators facadeValidators p s

/-- `PublicationRepository.findById(id)`: `findOneBy({ id })` over the store,
modelled as the first record with the matching id. -/
def findById (store : List Publication) (id : String) : Option Publication :=
  store.find? (fun p => p.id == id)

/-- The partial update performed by `PublicationRepository.updateStatus`:
`updateData = { status }`, with `reviewNotes` added only when the argument is
JS-truthy; all other columns of the row are untouched. -/
def applyStatusUpdate (p : Publication) (status : PublicationStatus)
    (reviewNotes : Option String) : Publication :=
  if truthy reviewNotes then { p with status := status, reviewNotes := reviewNotes }
  else { p with status := status }

/-- `PublicationRepository.updateStatus(id, status, reviewNotes)`: apply the
partial update to the row with the given id, then re-read it
(`this.update` ends with `return await this.findById(id)`).  Returns the
post-update store together with the re-read row. -/
def updateStatus (store : List Publication) (id : String) (status : PublicationStatus)
    (reviewNotes : Option String) : List Publication × Option Publication :=
  let store2 := store.map (fun p => if p.id == id then applyStatusUpdate p status reviewNotes else p)
  (store2, findById store2 id)

/-- `ChangePublicationStatusDTO`. -/
structure ChangePublicationStatusDTO where
  status : PublicationStatus
  reviewNotes : Option String := none
deriving DecidableEq, Repr

/-- `PublicationService.changePublicationStatus(id, dto)`.  Returns the
post-operation store paired with the outcome.  Mirrors the source exactly:
find the record, run the validation facade, run the state-machine check,
increment `reviewCount` on the in-memory entity when the target is
IN_REVIEW (note the incremented entity is never passed to `updateStatus`, so
the increment does not reach the store), then persist via `updateStatus`. -/
def changePublicationStatus (store : List Publication) (id : String)
    (dto : ChangePublicationStatusDTO) :
    List Publication × Except ServiceError Publication :=
  match findById store id with
  | none => (store, .error (.notFound id))
  | some publication =>
    match validateTransition publication dto.status with
    | some e => (store, .error e)
    | none =>
      if publication.canTransitionToStatus dto.status then
        -- `publication.reviewCount++` mutates only the loaded entity;
        -- `updateStatus` below writes `{ status, reviewNotes? }` from scratch.
        let _incremented :=
          if dto.status = IN_REVIEW then
            { publication with reviewCount := publication.reviewCount + 1 }
          else publication
        let res := updateStatus store id dto.status dto.reviewNotes
        match res.2 with
        | some updated => (res.1, .ok updated)
        | none => (res.1, .error (.internalError "Failed to update publication status"))
      else (store, .error (.illegalTransition publication.status dto.status))

/-- `AuthorData` returned by the authors service. -/
structure AuthorData where
  id : String
  firstName : String
  lastName : String
  email : String
  specialization : Option String := none
deriving DecidableEq, Repr

/-- `CreatePublicationDTO` (optional fields as `Option`). -/
structure CreatePublicationDTO where
  title : String
  content : String
  authorId : String
  abstract_text : Option String := none
  keywords : Option (List String) := none
deriving DecidableEq, Repr

/-- `PublicationService.createPublication(dto)`.  The two remote calls are
passed in as their results: `authorExistsResult` is what
`authorsServiceClient.authorExists(dto.authorId)` returned and `authorData`
what `getAuthor(dto.authorId)` returned; `newId` is the id the store
generates for the new row. -/
def createPublication (authorExistsResult : Bool) (authorData : Option AuthorData)
    (newId : String) (store : List Publication) (dto : CreatePublicationDTO) :
    List Publication × Except ServiceError Publication :=
  if dto.title = "" ∨ dto.content = "" ∨ dto.authorId = "" then
    (store, .error (.validation "title, content, and authorId are required"))
  else if !authorExistsResult then
    (store, .error (.notFound dto.authorId))
  else
    let publication : Publication :=
      { id := newId
        title := dto.title
        content := dto.content
        authorId := dto.authorId
        abstract_text := dto.abstract_text.getD ""
        keywords := dto.keywords.getD []
        status := DRAFT
        authorName := authorData.map (fun a => a.firstName ++ " " ++ a.lastName)
        authorEmail := authorData.map (fun a => a.email) }
    (publication :: store, .ok publication)

/-- The axios response seen by `authorExists` / `getAuthor`: an HTTP status
code and the decoded `AuthorResponse` body (`{ success, data }`). -/
structure HttpResponse where
  status : Nat
  success : Bool
  data : AuthorData
deriving DecidableEq, Repr

/-- `this.maxRetries = 3` in the `AuthorsServiceClient` constructor. -/
def maxRetries : Nat := 3

/-- `AuthorsServiceClient.retryRequest(requestFn, attempt)`.  The request
function is modelled by its outcome per attempt number
(`f : Nat → Except E α`).  Besides the final outcome, the model records the
attempt numbers at which `f` was invoked and the backoff delays
(`Math.pow(2, attempt) * 1000` ms) slept between attempts.
The recursion of the source is bounded by `attempt < this.maxRetries`; it is
expressed here structurally on `remaining = maxR - attempt`, so that
`remaining > 0` holds exactly when `attempt < maxR`. -/
def retryRequestGo {E α : Type} (f : Nat → Except E α) (remaining attempt : Nat) :
    Except E α × List Nat × List Nat :=
  match f attempt with
  | .ok v => (.ok v, [attempt], [])
  | .error e =>
    match remaining with
    | 0 => (.error e, [attempt], [])
    | r + 1 =>
      let delay := 2 ^ attempt * 1000
      let res := retryRequestGo f r (attempt + 1)
      (res.1, attempt :: res.2.1, delay :: res.2.2)

/-- `retryRequest(requestFn, attempt)` with retry bound `maxR`. -/
def retryRequest {E α : Type} (f : Nat → Except E α) (maxR : Nat) (attempt : Nat) :
    Except E α × List Nat × List Nat :=
  retryRequestGo f (maxR - attempt) attempt

/-- `AuthorsServiceClient.authorExists(authorId)`: retry the GET starting at
attempt 1; on a resolved response return `status === 200`, on a final
rejection catch and return `false`. -/
def authorExists (f : Nat → Except Unit HttpResponse) :
    Bool × List Nat × List Nat :=
  match retryRequest f maxRetries 1 with
  | (.ok r, atts, ds) => (r.status == 200, atts, ds)
  | (.error _, atts, ds) => (false, atts, ds)

/-- `AuthorsServiceClient.getAuthor(authorId)`: retry the GET starting at
attempt 1; on a resolved response return `response.data.data`, on a final
rejection catch and return `null`. -/
def getAuthor (f : Nat → Except Unit HttpResponse) :
    Option AuthorData × List Nat × List Nat :=
  match retryRequest f maxRetries 1 with
  | (.ok r, atts, ds) => (some r.data, atts, ds)
  | (.error _, atts, ds) => (none, atts, ds)

/-- The transition edges asserted by the specification (spec §4.4), as a
list of (from, to) pairs, to be compared with `canTransition`. -/
def claimedEdges : List (PublicationStatus × PublicationStatus) :=
  [(DRAFT, IN_REVIEW), (DRAFT, REJECTED),
   (IN_REVIEW, APPROVED), (IN_REVIEW, REJECTED), (IN_REVIEW, DRAFT),
   (APPROVED, PUBLISHED), (REJECTED, DRAFT)]

/-- The validator of the facade's list whose target is the given status
(`none` for DRAFT, which has no validator). -/
def validatorFor (s : PublicationStatus) : Option ValidatorTag :=
  facadeValidators.find? (fun v => targetStatus v == s)

/-- Fixture: a DRAFT publication with non-blank title and content. -/
def draftPub : Publication :=
  { id := "p1", title := "T", content := "C", status := DRAFT, authorId := "a1" }

/-- Fixture: a REJECTED publication with non-blank title and content. -/
def rejectedPub : Publication :=
  { id := "p2", title := "T", content := "C", status := REJECTED, authorId := "a1" }

/-- Fixture: an IN_REVIEW publication whose stored `reviewNotes` are
non-blank. -/
def reviewPub : Publication :=
  { id := "p3", title := "T", content := "C", status := IN_REVIEW, authorId := "a1",
    reviewNotes := some "ok" }

/-- Fixture: a remote that rejects every attempt. -/
def failingRemote : Nat → Except Unit HttpResponse := fun _ => .error ()

/-- Fixture: a creation request with all required fields present. -/
def sampleCreateDTO : CreatePublicationDTO :=
  { title := "T", content := "C", authorId := "a1" }

end MicroservicePub

deriving instance DecidableEq for Except

namespace MicroservicePub

open PublicationStatus

/-- A validator is a no-op when the requested status is not its target. -/
theorem validate_ne (v : ValidatorTag) (p : Publication) (s : PublicationStatus)
    (h : targetStatus v ≠ s) : validate v p s = none := by
  cases v <;> simp only [targetStatus] at h <;> simp only [validate] <;>
    rw [if_pos (Ne.symm h)]

/-- Running a list of validators none of which targets `s` succeeds. -/
theorem runValidators_none (l : List ValidatorTag) (p : Publication)
    (s : PublicationStatus) (h : ∀ v ∈ l, targetStatus v ≠ s) :
    runValidators l p s = none := by
  induction l with
  | nil => rfl
  | cons v rest ih =>
    have hv : validate v p s = none := validate_ne v p s (h v (List.mem_cons_self v rest))
    simp only [runValidators, hv]
    exact ih (fun w hw => h w (List.mem_cons_of_mem v hw))

/-- Running a list of validators containing exactly one occurrence of the
unique validator targeting `s` gives that validator's outcome. -/
theorem runValidators_count_one (t : ValidatorTag) (s : PublicationStatus)
    (hts : targetStatus t = s) (hothers : ∀ v : ValidatorTag, v ≠ t → targetStatus v ≠ s)
    (l : List ValidatorTag) (hc : l.count t = 1) (p : Publication) :
    runValidators l p s = validate t p s := by
  induction l with
  | nil => simp at hc
  | cons v rest ih =>
    by_cases hv : v = t
    · subst hv
      have hrest : rest.count v = 0 := by
        have := List.count_cons_self v rest
        omega
      have hnotmem : v ∉ rest := List.count_eq_zero.mp hrest
      cases hval : validate v p s with
      | some e => simp only [runValidators, hval]
      | none =>
        simp only [runValidators, hval]
        rw [runValidators_none rest p s]
        intro w hw
        exact hothers w (fun hwt => hnotmem (hwt ▸ hw)) 
    · have hne : validate v p s = none :=
        validate_ne v p s (hothers v hv)
      simp only [runValidators, hne]
      exact ih (by rw [← List.count_cons_of_ne (fun h => hv h.symm) rest]; exact hc)

/-- `applyStatusUpdate` never changes the row id. -/
theorem applyStatusUpdate_id (p : Publication) (st : PublicationStatus)
    (notes : Option String) : (applyStatusUpdate p st notes).id = p.id := by
  unfold applyStatusUpdate
  split <;> rfl

/-- Re-reading the updated store finds the updated row: the partial update
preserves ids, so `findById` after `updateStatus`'s map is the image of
`findById` before it. -/
theorem findById_updateStore (store : List Publication) (id : String)
    (st : PublicationStatus) (notes : Option String) :
    findById (store.map (fun p => if p.id == id then applyStatusUpdate p st notes else p)) id
      = (findById store id).map (fun p => applyStatusUpdate p st notes) := by
  induction store with
  | nil => rfl
  | cons q rest ih =>
    simp only [List.map_cons, findById, List.find?_cons] at ih ⊢
    cases h : (q.id == id) with
    | true =>
      rw [if_pos (by simp [h])]
      simp [applyStatusUpdate_id, h]
    | false =>
      rw [if_neg (by simp [h])]
      simp only [h]
      exact ih

end MicroservicePub

namespace MicroservicePub

open PublicationStatus

/-- C4: `canTransitionToStatus` returns true exactly for the seven edges
DRAFT→IN_REVIEW, DRAFT→REJECTED, IN_REVIEW→APPROVED, IN_REVIEW→REJECTED,
IN_REVIEW→DRAFT, APPROVED→PUBLISHED, REJECTED→DRAFT, and false for every
other pair; in particular PUBLISHED has no outgoing transition. -/
theorem canTransition_iff_claimedEdges :
    (∀ src dst : PublicationStatus,
        canTransition src dst = true ↔ (src, dst) ∈ claimedEdges) ∧
    (∀ dst : PublicationStatus, canTransition PUBLISHED dst = false) := by
  constructor
  · intro src dst
    cases src <;> cases dst <;> decide
  · intro dst
    cases dst <;> decide

/-- C1 (code bug): for a DRAFT record with non-blank title and content, the
status change to IN_REVIEW succeeds but the persisted record's `reviewCount`
is unchanged (0, not 1): `changePublicationStatus` increments `reviewCount`
only on the in-memory entity, while `updateStatus` writes only
`status`/`reviewNotes`.  Moreover, for a REJECTED record with non-blank
title and content, the request does not succeed at all: the state machine
has no REJECTED→IN_REVIEW edge, so it fails with the illegal-transition
error even though the claim requires success. -/
theorem reviewCount_increment_lost :
    (changePublicationStatus [draftPub] "p1" { status := IN_REVIEW }
      = ([{ draftPub with status := IN_REVIEW }],
         .ok { draftPub with status := IN_REVIEW })) ∧
    ({ draftPub with status := IN_REVIEW } : Publication).reviewCount = 0 ∧
    ((changePublicationStatus [rejectedPub] "p2" { status := IN_REVIEW }).2
      = .error (.illegalTransition REJECTED IN_REVIEW)) := by
  refine ⟨rfl, rfl, rfl⟩

/-- C10: when the request's `reviewNotes` are falsy (absent or the empty
string), `updateStatus` persists only the new status: every stored row is
either untouched (different id) or equal to the old row with only `status`
replaced — `reviewNotes` keeps its previous value. -/
theorem updateStatus_falsy_notes_frame
    (store : List Publication) (id : String) (st : PublicationStatus)
    (notes : Option String) (h : notes = none ∨ notes = some "") :
    (updateStatus store id st notes).1
      = store.map (fun p => if p.id == id then { p with status := st } else p) := by
  have ht : truthy notes = false := by
    rcases h with h | h <;> subst h <;> rfl
  simp [updateStatus, applyStatusUpdate, ht]

/-- Witness for C10 at a concrete store and an empty-string notes value. -/
theorem updateStatus_falsy_notes_frame_witness :
    (updateStatus [reviewPub] "p3" APPROVED (some "")).1
      = [reviewPub].map (fun p => if p.id == "p3" then { p with status := APPROVED } else p) :=
  updateStatus_falsy_notes_frame [reviewPub] "p3" APPROVED (some "") (Or.inr rfl)

end MicroservicePub

namespace MicroservicePub

open PublicationStatus

/-- C9: the transition graph has no self-loops, and a status-change request
naming the record's current status never succeeds, whatever the record's
content: either some validator rejects it, or the state-machine check
fails. -/
theorem no_self_transition :
    (∀ s : PublicationStatus, canTransition s s = false) ∧
    (∀ (store : List Publication) (id : String) (dto : ChangePublicationStatusDTO)
        (p : Publication), findById store id = some p → dto.status = p.status →
        (changePublicationStatus store id dto).2.isOk = false) := by
  constructor
  · intro s
    cases s <;> decide
  · intro store id dto p hfind hst
    obtain ⟨ds, dn⟩ := dto
    simp only at hst
    subst hst
    cases hps : p.status <;>
      cases hbt : strBlank p.title <;>
      cases hbc : strBlank p.content <;>
      cases hbn : notesBlank p.reviewNotes <;>
        simp [changePublicationStatus, hfind, hps, validateTransition,
          facadeValidators, runValidators, validate, Publication.canTransitionToStatus,
          canTransition, validTransitions, hbt, hbc, hbn, Except.isOk, Except.toBool]

end MicroservicePub

namespace MicroservicePub

open PublicationStatus

/-- Witness for C9 at a concrete DRAFT record asked to move to DRAFT. -/
theorem no_self_transition_witness :
    (changePublicationStatus [draftPub] "p1" { status := DRAFT }).2.isOk = false :=
  no_self_transition.2 [draftPub] "p1" { status := DRAFT } draftPub rfl rfl

/-- C5: every failing status-change request leaves the store exactly as it
was: all error paths of `changePublicationStatus` (record not found,
validator throw, structurally illegal transition) return before any call to
`updateStatus`.  The post-update failure branch (`Failed to update ...`) is
unreachable once the initial `findById` succeeded, since the partial update
preserves row ids. -/
theorem failed_change_no_mutation
    (store : List Publication) (id : String) (dto : ChangePublicationStatusDTO)
    (e : ServiceError) (h : (changePublicationStatus store id dto).2 = .error e) :
    (changePublicationStatus store id dto).1 = store := by
  unfold changePublicationStatus at h ⊢
  cases hfind : findById store id with
  | none => simp [hfind]
  | some p =>
    cases hv : validateTransition p dto.status with
    | some e2 => simp [hfind, hv]
    | none =>
      cases hcan : p.canTransitionToStatus dto.status with
      | false => simp [hfind, hv, hcan]
      | true =>
        have hres : (updateStatus store id dto.status dto.reviewNotes).2
            = some (applyStatusUpdate p dto.status dto.reviewNotes) := by
          show findById
              (store.map (fun q => if q.id == id then applyStatusUpdate q dto.status dto.reviewNotes else q)) id
            = some (applyStatusUpdate p dto.status dto.reviewNotes)
          rw [findById_updateStore, hfind]
          rfl
        simp [hfind, hv, hcan, hres] at h

/-- Witness for C5 at a concrete failing request (DRAFT asked to move
straight to PUBLISHED, rejected by the ToPublished validator). -/
theorem failed_change_no_mutation_witness :
    (changePublicationStatus [draftPub] "p1" { status := PUBLISHED }).1 = [draftPub] :=
  failed_change_no_mutation [draftPub] "p1" { status := PUBLISHED }
    (.validation "Only APPROVED publications can be PUBLISHED") rfl

end MicroservicePub

namespace MicroservicePub

open PublicationStatus

/-- Counterexample to C2 as stated: for an IN_REVIEW record whose *stored*
`reviewNotes` are non-blank, a request to APPROVED whose *request*
`reviewNotes` are the empty string still succeeds — the validator reads
`publication.reviewNotes`, not the DTO's notes (and the empty request notes,
being falsy, are not even written). -/
theorem approved_empty_request_notes_succeeds :
    (changePublicationStatus [reviewPub] "p3" { status := APPROVED, reviewNotes := some "" }).2
      = .ok { reviewPub with status := APPROVED } := by
  rfl

/-- C2 (amended): a status-change request to APPROVED succeeds iff the
record's current status is exactly IN_REVIEW and the record's *stored*
`reviewNotes` are non-blank; the `reviewNotes` supplied in the request are
not consulted by the validation. -/
theorem approved_iff_stored_notes
    (store : List Publication) (id : String) (dto : ChangePublicationStatusDTO)
    (p : Publication) (hfind : findById store id = some p)
    (hds : dto.status = APPROVED) :
    (changePublicationStatus store id dto).2.isOk = true ↔
      (p.status = IN_REVIEW ∧ notesBlank p.reviewNotes = false) := by
  obtain ⟨ds, dn⟩ := dto
  simp only at hds
  subst hds
  have hres : (updateStatus store id APPROVED dn).2
      = some (applyStatusUpdate p APPROVED dn) := by
    show findById
        (store.map (fun q => if q.id == id then applyStatusUpdate q APPROVED dn else q)) id
      = some (applyStatusUpdate p APPROVED dn)
    rw [findById_updateStore, hfind]
    rfl
  cases hps : p.status <;>
    cases hbn : notesBlank p.reviewNotes <;>
      simp [changePublicationStatus, hfind, hps, validateTransition, facadeValidators,
        runValidators, validate, Publication.canTransitionToStatus, canTransition,
        validTransitions, hbn, hres, Except.isOk, Except.toBool]

/-- Witness for C2 (amended) at a concrete IN_REVIEW record with stored
non-blank notes. -/
theorem approved_iff_stored_notes_witness :
    (changePublicationStatus [reviewPub] "p3" { status := APPROVED }).2.isOk = true ↔
      (reviewPub.status = IN_REVIEW ∧ notesBlank reviewPub.reviewNotes = false) :=
  approved_iff_stored_notes [reviewPub] "p3" { status := APPROVED } reviewPub rfl rfl

/-- Counterexample to C3 as stated: for a REJECTED record asked to move to
PUBLISHED the operation fails with the ToPublished validator's
ValidationError, not with the structurally-disallowed-transition
(IllegalTransitionError) failure kind — the facade runs before the
state-machine check. -/
theorem rejected_to_published_error_kind :
    ((changePublicationStatus [rejectedPub] "p2" { status := PUBLISHED }).2
      = .error (.validation "Only APPROVED publications can be PUBLISHED")) ∧
    (ServiceError.validation "Only APPROVED publications can be PUBLISHED"
      ≠ ServiceError.illegalTransition REJECTED PUBLISHED) := by
  exact ⟨rfl, by decide⟩

/-- C3 (amended): for every REJECTED record, a status-change request to
PUBLISHED fails with the ValidationError `Only APPROVED publications can be
PUBLISHED` thrown by the ToPublished validator; the state-machine check
(which would also forbid the edge) is never reached. -/
theorem rejected_to_published_fails_validation
    (store : List Publication) (id : String) (dto : ChangePublicationStatusDTO)
    (p : Publication) (hfind : findById store id = some p)
    (hps : p.status = REJECTED) (hds : dto.status = PUBLISHED) :
    (changePublicationStatus store id dto).2
      = .error (.validation "Only APPROVED publications can be PUBLISHED") := by
  obtain ⟨ds, dn⟩ := dto
  simp only at hds
  subst hds
  simp [changePublicationStatus, hfind, validateTransition, facadeValidators,
    runValidators, validate, hps]

/-- Witness for C3 (amended) at a concrete REJECTED record. -/
theorem rejected_to_published_fails_validation_witness :
    (changePublicationStatus [rejectedPub] "p2" { status := PUBLISHED }).2
      = .error (.validation "Only APPROVED publications can be PUBLISHED") :=
  rejected_to_published_fails_validation [rejectedPub] "p2" { status := PUBLISHED }
    rejectedPub rfl rfl rfl

end MicroservicePub

namespace MicroservicePub

open PublicationStatus

/-- C6: the facade's outcome equals the outcome of the single validator
whose target is the requested status (`validatorFor`), DRAFT has no
validator (so the facade always succeeds for DRAFT), and running the
validators in any order — any permutation of the facade's list — yields the
same outcome; at most one error is ever surfaced (the result is a single
`Option ServiceError`). -/
theorem facade_single_validator :
    (∀ (p : Publication) (s : PublicationStatus),
        validateTransition p s = (validatorFor s).bind (fun v => validate v p s)) ∧
    validatorFor DRAFT = none ∧
    (∀ (l : List ValidatorTag), l.Perm facadeValidators →
        ∀ (p : Publication) (s : PublicationStatus),
          runValidators l p s = validateTransition p s) := by
  have key : ∀ (l : List ValidatorTag), l.Perm facadeValidators →
      ∀ (p : Publication) (s : PublicationStatus),
        runValidators l p s = (validatorFor s).bind (fun v => validate v p s) := by
    intro l hl p s
    cases s with
    | DRAFT =>
      rw [runValidators_none l p DRAFT (by intro v _; cases v <;> decide)]
      rfl
    | IN_REVIEW =>
      rw [runValidators_count_one .toReview IN_REVIEW rfl
        (by intro v hv; cases v <;> first | decide | exact absurd rfl hv) l
        (by rw [hl.count_eq]; decide) p]
      rfl
    | APPROVED =>
      rw [runValidators_count_one .toApproved APPROVED rfl
        (by intro v hv; cases v <;> first | decide | exact absurd rfl hv) l
        (by rw [hl.count_eq]; decide) p]
      rfl
    | PUBLISHED =>
      rw [runValidators_count_one .toPublished PUBLISHED rfl
        (by intro v hv; cases v <;> first | decide | exact absurd rfl hv) l
        (by rw [hl.count_eq]; decide) p]
      rfl
    | REJECTED =>
      rw [runValidators_count_one .toRejected REJECTED rfl
        (by intro v hv; cases v <;> first | decide | exact absurd rfl hv) l
        (by rw [hl.count_eq]; decide) p]
      rfl
  refine ⟨fun p s => key facadeValidators (List.Perm.refl _) p s, rfl, fun l hl p s => ?_⟩
  rw [key l hl p s, ← key facadeValidators (List.Perm.refl _) p s]
  rfl

/-- Witness for C6 at the reversed validator list and a concrete record. -/
theorem facade_single_validator_witness :
    runValidators [ValidatorTag.toRejected, .toPublished, .toApproved, .toReview]
      reviewPub APPROVED = validateTransition reviewPub APPROVED :=
  facade_single_validator.2.2 [ValidatorTag.toRejected, .toPublished, .toApproved, .toReview]
    (by decide) reviewPub APPROVED

/-- C7: against a remote that fails every attempt, `authorExists` and
`getAuthor` each invoke the request exactly 3 times (attempts 1, 2, 3),
sleeping the exponential-backoff delays 2^1·1000 = 2000 ms and
2^2·1000 = 4000 ms between attempts, and then return `false` / no value
respectively instead of raising. -/
theorem retry_exhaustion (f : Nat → Except Unit HttpResponse)
    (hf : ∀ n, f n = .error ()) :
    authorExists f = (false, [1, 2, 3], [2000, 4000]) ∧
    getAuthor f = (none, [1, 2, 3], [2000, 4000]) := by
  constructor <;>
    simp [authorExists, getAuthor, retryRequest, retryRequestGo, maxRetries, hf]

/-- Witness for C7 at the concrete always-failing remote. -/
theorem retry_exhaustion_witness :
    authorExists failingRemote = (false, [1, 2, 3], [2000, 4000]) ∧
    getAuthor failingRemote = (none, [1, 2, 3], [2000, 4000]) :=
  retry_exhaustion failingRemote (fun _ => rfl)

/-- C8: when the author-existence check succeeds but the enrichment fetch
yields no value, creation with non-empty title, body and authorId still
succeeds: the new record is persisted with status DRAFT and with no
authorName/authorEmail snapshot. -/
theorem create_without_enrichment
    (newId : String) (store : List Publication) (dto : CreatePublicationDTO)
    (h1 : dto.title ≠ "") (h2 : dto.content ≠ "") (h3 : dto.authorId ≠ "") :
    ∃ q : Publication,
      createPublication true none newId store dto = (q :: store, .ok q) ∧
      q.status = DRAFT ∧ q.authorName = none ∧ q.authorEmail = none ∧
      q.title = dto.title ∧ q.content = dto.content ∧ q.authorId = dto.authorId := by
  have hcond : ¬(dto.title = "" ∨ dto.content = "" ∨ dto.authorId = "") := by
    simp [h1, h2, h3]
  refine ⟨{ id := newId, title := dto.title, content := dto.content,
            authorId := dto.authorId, abstract_text := dto.abstract_text.getD "",
            keywords := dto.keywords.getD [], status := DRAFT },
    ?_, rfl, rfl, rfl, rfl, rfl, rfl⟩
  simp [createPublication, hcond]

/-- Witness for C8 at a concrete creation request. -/
theorem create_without_enrichment_witness :
    ∃ q : Publication,
      createPublication true none "p9" [] sampleCreateDTO = (q :: [], .ok q) ∧
      q.status = DRAFT ∧ q.authorName = none ∧ q.authorEmail = none ∧
      q.title = sampleCreateDTO.title ∧ q.content = sampleCreateDTO.content ∧
      q.authorId = sampleCreateDTO.authorId :=
  create_without_enrichment "p9" [] sampleCreateDTO
    (by decide) (by decide) (by decide)

end MicroservicePub
